import Mathlib

/-!
Verification development for a minimal HTTP authentication backend
(register / login / logout over one Account entity, bcrypt-hashed
passwords, a signed-token session cookie, a centralized error responder,
and a 404 fallback).

The definitions below are a shallow embedding of the TypeScript sources:

  - src/controllers/auth/auth.controller.ts  (register, login, logout)
  - src/services/auth/auth.service.ts        (findAccountS, registerS)
  - src/models/account/account.model.ts      (Account)
  - src/utils/error/app-error.util.ts        (AppError)
  - src/utils/jwt/generate-token.ts          (generateToken)
  - src/utils/bcrypt/bcrypt.util.ts          (hashPassword, comparePassword)
  - src/middlewares/global-error-handler.middleware.ts (globalErrorHandler)
  - src/routes/auth/auth.route.ts            (authRouter)
  - src/index.ts                             (route mounting, 404 handler)

External collaborators (the bcryptjs and jsonwebtoken libraries, the
Express response object, Mongoose persistence) are modelled by concrete
executable Lean functions that mirror the contracts the code relies on.
Request bodies are JavaScript objects whose fields may be absent; a field
is modelled as an Option String and JS truthiness of a string field
(false for undefined and for the empty string) as the function truthy.
-/

namespace AuthBackend

/-- JS truthiness of an optional string field of a request body:
undefined and the empty string are falsy, every other string truthy. -/
def truthy : Option String → Bool
  | none => false
  | some s => s != ""

/-- Account document as persisted by the accounts collection
(src/models/account/account.model.ts, AccountType): the store-assigned
identifier plus name, email and the (hashed) password. -/
structure Account where
  _id : String
  name : String
  email : String
  password : String
deriving DecidableEq, Repr

/-- Filter accepted by findAccountS (AccountFilterType = Partial of
AccountType): each field optionally constrains the match. -/
structure AccountFilter where
  _id : Option String := none
  name : Option String := none
  email : Option String := none
  password : Option String := none
deriving DecidableEq, Repr

/-- Whether an account document matches a partial-field filter: every
field present in the filter must equal the document field. -/
def matchesFilter (f : AccountFilter) (a : Account) : Bool :=
  f._id.all (· == a._id) && f.name.all (· == a.name)
    && f.email.all (· == a.email) && f.password.all (· == a.password)

/-- Filter used by both controllers: constrain the email only. -/
def emailFilter (e : String) : AccountFilter := { email := some e }

/-- State of the accounts collection: the persisted documents plus the
counter the model uses for store-assigned identifiers (Mongoose assigns
an opaque ObjectId on create; the counter is its executable model). -/
structure Store where
  accounts : List Account
  nextId : Nat
deriving DecidableEq, Repr

/-- Service findAccountS (src/services/auth/auth.service.ts): a findOne
over the collection; returns the first match or none, never throws. -/
def findAccountS (st : Store) (filter : AccountFilter) : Option Account :=
  st.accounts.find? (matchesFilter filter)

/-- Service registerS (src/services/auth/auth.service.ts): Account.create,
persisting a new document with a store-assigned identifier and returning
the created document together with the new collection state. -/
def registerS (st : Store) (name email password : String) : Account × Store :=
  let account : Account := { _id := toString st.nextId, name, email, password }
  (account, { accounts := st.accounts ++ [account], nextId := st.nextId + 1 })

/-- Modelled from the bcryptjs library contract used by
src/utils/bcrypt/bcrypt.util.ts: hashPassword salts (the fresh salt of
each call is the explicit first argument) and one-way-hashes the
plaintext; the output is a formatted digest string, never the plaintext
itself. -/
def hashPassword (salt : Nat) (password : String) : String :=
  "$2b$10$" ++ toString salt ++ "$" ++ password

/-- Modelled from the bcryptjs library contract used by
src/utils/bcrypt/bcrypt.util.ts: comparePassword checks the entered
plaintext against a stored digest, returning true exactly on the digests
produced for that plaintext; it returns false (never throws) otherwise. -/
def comparePassword (entered stored : String) : Bool :=
  "$2b$10$".data.isPrefixOf stored.data
    && ("$" ++ entered).data.isSuffixOf stored.data

/-- AppError (src/utils/error/app-error.util.ts): an operational error
carrying a client-facing message and an HTTP status code. -/
structure AppError where
  message : String
  statusCode : Nat
deriving DecidableEq, Repr

/-- Runtime environment configuration read by the code
(process.env.NODE_ENV and process.env.JWT_SECRET). -/
structure Env where
  nodeEnv : String
  jwtSecret : String
deriving DecidableEq, Repr

/-- Signed session token as produced by jwt.sign in
src/utils/jwt/generate-token.ts: the payload is the account identifier
alone, with the configured expiry and signing secret. -/
structure SignedToken where
  accountId : String
  expiresInDays : Nat
  secret : String
deriving DecidableEq, Repr

/-- Modelled from the jsonwebtoken library contract: jwt.sign over the
payload containing only the account identifier, with expiresIn 15d. -/
def jwtSign (accountId secret : String) : SignedToken :=
  { accountId := accountId, expiresInDays := 15, secret := secret }

/-- Serialization of a signed token into the cookie value string. -/
def encodeToken (t : SignedToken) : String :=
  "jwt." ++ t.accountId ++ "." ++ toString t.expiresInDays ++ "." ++ t.secret

/-- Cookie as set through res.cookie: name, value and the option bag
(maxAge in milliseconds, httpOnly, sameSite, secure); options omitted at
a call site take the Express defaults false / none. -/
structure Cookie where
  name : String
  value : String
  maxAge : Nat
  httpOnly : Bool
  sameSite : Option String
  secure : Bool
deriving DecidableEq, Repr

/-- Primitive JSON values appearing in the response bodies. -/
inductive JVal where
  | s : String → JVal
  | b : Bool → JVal
deriving DecidableEq, Repr

/-- Response body: either a plain text send or a flat JSON object given
as its ordered field list. -/
inductive Body where
  | text : String → Body
  | json : List (String × JVal) → Body
deriving DecidableEq, Repr

/-- Express response accumulator: the cookies set so far and, once
res.status(...).json(...) or res.send(...) ran, the status and body. -/
structure Res where
  cookies : List Cookie
  sent : Option (Nat × Body)
deriving DecidableEq, Repr

/-- Fresh response object, before any handler touched it. -/
def res0 : Res := { cookies := [], sent := none }

/-- res.cookie: append a cookie to the response. -/
def setCookie (res : Res) (c : Cookie) : Res :=
  { res with cookies := res.cookies ++ [c] }

/-- res.status(code).json(body) / res.status(code).send(body). -/
def send (res : Res) (code : Nat) (body : Body) : Res :=
  { res with sent := some (code, body) }

/-- generateToken (src/utils/jwt/generate-token.ts): signs a token whose
payload is the account identifier with a 15-day expiry and attaches it
as the cookie named token with maxAge 15 days in milliseconds, httpOnly,
sameSite lax, and secure exactly in production mode. -/
def generateToken (accountId : String) (env : Env) : Cookie :=
  let token := jwtSign accountId env.jwtSecret
  { name := "token"
    value := encodeToken token
    maxAge := 15 * 24 * 60 * 60 * 1000
    httpOnly := true
    sameSite := some "lax"
    secure := env.nodeEnv == "production" }

/-- Request body of the auth endpoints: the three fields destructured by
the controllers, each possibly absent. -/
structure ReqBody where
  name : Option String := none
  email : Option String := none
  password : Option String := none
deriving DecidableEq, Repr

/-- register controller (src/controllers/auth/auth.controller.ts):
validate presence of name, email and password; reject a duplicate email;
hash the password; persist the account; set the token cookie; respond
200 with a confirmation message. The salt argument is the fresh bcrypt
salt of this call; the result is the thrown error or unit, paired with
the response object and the store after the call. -/
def register (env : Env) (st : Store) (body : ReqBody) (salt : Nat)
    (res : Res) : Except AppError Unit × Res × Store :=
  if !truthy body.name || !truthy body.email || !truthy body.password then
    (Except.error { message := "All fields are required.", statusCode := 400 }, res, st)
  else
    match findAccountS st (emailFilter (body.email.getD "")) with
    | some _ =>
      (Except.error { message := "Email already exist.", statusCode := 409 }, res, st)
    | none =>
      let hashedPassword := hashPassword salt (body.password.getD "")
      let created := registerS st (body.name.getD "") (body.email.getD "") hashedPassword
      let res := setCookie res (generateToken created.1._id env)
      (Except.ok (),
        send res 200 (Body.json [("message", JVal.s "Account registered successfully.")]),
        created.2)

/-- login controller (src/controllers/auth/auth.controller.ts): validate
presence of email and password; look the account up by email (404 when
absent); compare the password against the stored hash (400 on mismatch);
set the token cookie and respond 200. -/
def login (env : Env) (st : Store) (body : ReqBody) (res : Res) :
    Except AppError Unit × Res :=
  if !truthy body.email || !truthy body.password then
    (Except.error { message := "All field are required.", statusCode := 400 }, res)
  else
    match findAccountS st (emailFilter (body.email.getD "")) with
    | none =>
      (Except.error { message := "Account not found.", statusCode := 404 }, res)
    | some account =>
      if !comparePassword (body.password.getD "") account.password then
        (Except.error { message := "Incorrect password.", statusCode := 400 }, res)
      else
        let res := setCookie res (generateToken account._id env)
        (Except.ok (), send res 200 (Body.json [("message", JVal.s "Login successfuly.")]))

/-- Incoming HTTP request: method, original URL and parsed JSON body. -/
structure Request where
  method : String
  originalUrl : String
  body : ReqBody
deriving DecidableEq, Repr

/-- logout controller (src/controllers/auth/auth.controller.ts):
overwrite the token cookie with an empty value and maxAge 0 (the other
cookie options take the Express defaults) and respond 200; the request
is never inspected. -/
def logout (_req : Request) (res : Res) : Res :=
  let res := setCookie res
    { name := "token", value := "", maxAge := 0
      httpOnly := false, sameSite := none, secure := false }
  send res 200 (Body.json [("message", JVal.s "Logged out successfully")])

/-- Error value reaching the global error handler: either a thrown
AppError (instanceof AppError) with its runtime stack, or any other
error whose statusCode and message fields may be absent. -/
inductive JsError where
  | app : AppError → String → JsError
  | other : Option Nat → Option String → String → JsError
deriving DecidableEq, Repr

/-- JS expression field-or-default over a numeric field (err.statusCode
|| d): absent and 0 are falsy. -/
def jsOrNat : Option Nat → Nat → Nat
  | none, d => d
  | some n, d => if n == 0 then d else n

/-- JS expression field-or-default over a string field (err.message ||
d): absent and the empty string are falsy. -/
def jsOrStr : Option String → String → String
  | none, d => d
  | some s, d => if s == "" then d else s

/-- Stack string of an error value. -/
def JsError.stackOf : JsError → String
  | .app _ stk => stk
  | .other _ _ stk => stk

/-- globalErrorHandler
(src/middlewares/global-error-handler.middleware.ts): default the status
to err.statusCode or 500 and the message to err.message or a generic
one, override both verbatim for an AppError, and send a JSON body with
the success flag, the message, and the stack exactly in development
mode. -/
def globalErrorHandler (env : Env) (err : JsError) (res : Res) : Res :=
  let isDev := env.nodeEnv == "development"
  let statusCode :=
    match err with
    | .app e _ => jsOrNat (some e.statusCode) 500
    | .other sc _ _ => jsOrNat sc 500
  let message :=
    match err with
    | .app e _ => jsOrStr (some e.message) "Something went wrong."
    | .other _ m _ => jsOrStr m "Something went wrong."
  let statusCode := match err with | .app e _ => e.statusCode | _ => statusCode
  let message := match err with | .app e _ => e.message | _ => message
  send res statusCode (Body.json
    ([("success", JVal.b false), ("message", JVal.s message)]
      ++ if isDev then [("stack", JVal.s err.stackOf)] else []))

/-- Handlers reachable from the route tables. -/
inductive Handler where
  | register
  | login
  | logout
  | test
deriving DecidableEq, Repr

/-- authRouter (src/routes/auth/auth.route.ts): the three POST bindings
register, login and logout, relative to the mount point. -/
def authRouter : List (String × String × Handler) :=
  [("POST", "/register", Handler.register),
   ("POST", "/login", Handler.login),
   ("POST", "/logout", Handler.logout)]

/-- Dispatch through a route table: first binding whose method and path
both match. -/
def lookupRoute (method path : String) :
    List (String × String × Handler) → Option Handler
  | [] => none
  | (m, p, h) :: rest =>
    if method == m && path == p then some h else lookupRoute method path rest

/-- Route dispatch of the bootstrapped app (src/index.ts): the GET
/api/test health route, then authRouter mounted under /api/auth. -/
def route (method path : String) : Option Handler :=
  if method == "GET" && path == "/api/test" then some Handler.test
  else
    lookupRoute method path
      (authRouter.map (fun b => (b.1, "/api/auth" ++ b.2.1, b.2.2)))

/-- 404 fallback of src/index.ts: runs when no route matched; responds
404 with a JSON body echoing the requested path and method. -/
def notFoundHandler (req : Request) (res : Res) : Res :=
  send res 404 (Body.json
    [("message", JVal.s "Route Not Found"),
     ("path", JVal.s req.originalUrl),
     ("method", JVal.s req.method)])

/-- End-to-end handling of one request by the bootstrapped app
(src/index.ts): dispatch to the matched handler, funnel a thrown
AppError (with its runtime stack stk) into globalErrorHandler, and fall
through to the 404 handler when nothing matched. -/
def serverHandle (env : Env) (st : Store) (salt : Nat) (stk : String)
    (req : Request) : Res × Store :=
  match route req.method req.originalUrl with
  | some Handler.test => (send res0 200 (Body.text "Api is running"), st)
  | some Handler.register =>
    match register env st req.body salt res0 with
    | (Except.ok _, res, st2) => (res, st2)
    | (Except.error e, res, st2) => (globalErrorHandler env (JsError.app e stk) res, st2)
  | some Handler.login =>
    match login env st req.body res0 with
    | (Except.ok _, res) => (res, st)
    | (Except.error e, res) => (globalErrorHandler env (JsError.app e stk) res, st)
  | some Handler.logout => (logout req res0, st)
  | none => (notFoundHandler req res0, st)

/-- Environment fixture used by concrete witnesses: a non-production,
non-development mode. -/
def wEnv : Env := { nodeEnv := "test", jwtSecret := "sec" }

/-- Account fixture: a persisted account whose stored password is the
digest of the plaintext pw under salt 7. -/
def wAccount : Account :=
  { _id := "0", name := "B", email := "b@x.com", password := hashPassword 7 "pw" }

/-- Store fixture holding the single account wAccount. -/
def wStore : Store := { accounts := [wAccount], nextId := 1 }

/-- Store fixture with no accounts. -/
def wEmpty : Store := { accounts := [], nextId := 0 }

/-- Environment fixture in development mode. -/
def wDev : Env := { nodeEnv := "development", jwtSecret := "sec" }

/- ------------------------------------------------------------------
Helper lemmas shared by the claim theorems.
------------------------------------------------------------------ -/

theorem truthy_some_of_ne {s : String} (h : s ≠ "") : truthy (some s) = true := by
  simp [truthy, h]

theorem matchesFilter_emailFilter (e : String) (a : Account) :
    matchesFilter (emailFilter e) a = (e == a.email) := by
  simp [matchesFilter, emailFilter]

theorem findAccountS_emailFilter_eq_none {st : Store} {e : String}
    (h : ∀ a ∈ st.accounts, a.email ≠ e) :
    findAccountS st (emailFilter e) = none := by
  unfold findAccountS
  rw [List.find?_eq_none]
  intro a ha
  rw [matchesFilter_emailFilter]
  simp
  exact fun hh => h a ha hh.symm

theorem find?_append_of_none {α : Type} (p : α → Bool) {l₁ : List α} (l₂ : List α)
    (h : l₁.find? p = none) : (l₁ ++ l₂).find? p = l₂.find? p := by
  induction l₁ with
  | nil => simp
  | cons x xs ih =>
    cases hx : p x with
    | true => rw [List.find?_cons_of_pos _ hx] at h; exact absurd h (by simp)
    | false =>
      have hx' : ¬ p x = true := by simp [hx]
      rw [List.find?_cons_of_neg _ hx'] at h
      rw [List.cons_append, List.find?_cons_of_neg _ hx']
      exact ih h

theorem hashPassword_ne (salt : Nat) (p : String) : hashPassword salt p ≠ p := by
  intro h
  have hl := congrArg String.length h
  simp only [hashPassword, String.length_append] at hl
  have h7 : ("$2b$10$" : String).length = 7 := rfl
  have h1 : ("$" : String).length = 1 := rfl
  rw [h7, h1] at hl
  omega

/-- Successful registration, fully evaluated: with all three fields
present and non-empty and no persisted account carrying the email, the
register controller appends exactly one account (hashed password,
store-assigned identifier), sets the session-token cookie, and sends the
200 confirmation. -/
theorem register_ok (env : Env) (st : Store) (res : Res) (salt : Nat)
    {n e p : String} (hn : n ≠ "") (he : e ≠ "") (hp : p ≠ "")
    (hfree : ∀ a ∈ st.accounts, a.email ≠ e) :
    register env st { name := some n, email := some e, password := some p } salt res =
      (Except.ok (),
       { cookies := res.cookies ++ [generateToken (toString st.nextId) env],
         sent := some (200, Body.json [("message", JVal.s "Account registered successfully.")]) },
       { accounts := st.accounts ++
           [{ _id := toString st.nextId, name := n, email := e,
              password := hashPassword salt p }],
         nextId := st.nextId + 1 }) := by
  have hfind : findAccountS st (emailFilter e) = none :=
    findAccountS_emailFilter_eq_none hfree
  simp [register, truthy, hn, he, hp, hfind, registerS, setCookie, send]

/- ------------------------------------------------------------------
Claim theorems.
------------------------------------------------------------------ -/

/-- C1: for every register request whose body contains name, email and
password all present and non-empty, where no existing account has that
email, the register handler responds 200, persists an account whose
password field holds the bcrypt digest of the submitted password (which
is never the plaintext), sets the session-token cookie, and the response
body contains only the confirmation message, never the created account
fields or the hash. -/
theorem register_success_claim (env : Env) (st : Store) (res : Res) (salt : Nat)
    (n e p : String) (hn : n ≠ "") (he : e ≠ "") (hp : p ≠ "")
    (hfree : ∀ a ∈ st.accounts, a.email ≠ e) :
    register env st { name := some n, email := some e, password := some p } salt res =
      (Except.ok (),
       { cookies := res.cookies ++ [generateToken (toString st.nextId) env],
         sent := some (200, Body.json [("message", JVal.s "Account registered successfully.")]) },
       { accounts := st.accounts ++
           [{ _id := toString st.nextId, name := n, email := e,
              password := hashPassword salt p }],
         nextId := st.nextId + 1 }) ∧
    hashPassword salt p ≠ p :=
  ⟨register_ok env st res salt hn he hp hfree, hashPassword_ne salt p⟩

/-- Concrete run of register_success_claim: registering A / a@x.com / p
against the empty store succeeds, persists the digest, sets the cookie. -/
theorem register_success_claim_witness :
    register wEnv wEmpty { name := some "A", email := some "a@x.com", password := some "p" }
        3 res0 =
      (Except.ok (),
       { cookies := res0.cookies ++ [generateToken (toString wEmpty.nextId) wEnv],
         sent := some (200, Body.json [("message", JVal.s "Account registered successfully.")]) },
       { accounts := wEmpty.accounts ++
           [{ _id := toString wEmpty.nextId, name := "A", email := "a@x.com",
              password := hashPassword 3 "p" }],
         nextId := wEmpty.nextId + 1 }) ∧
    hashPassword 3 "p" ≠ "p" :=
  register_success_claim wEnv wEmpty res0 3 "A" "a@x.com" "p"
    (by decide) (by decide) (by decide) (by decide)

/-- C3: for every register request in which any of name, email or
password is absent or empty, the handler fails with the 400 validation
error, the store is unchanged (no account created) and the response
object untouched. -/
theorem register_missing_field_claim (env : Env) (st : Store) (res : Res) (salt : Nat)
    (body : ReqBody)
    (h : truthy body.name = false ∨ truthy body.email = false ∨
      truthy body.password = false) :
    register env st body salt res =
      (Except.error { message := "All fields are required.", statusCode := 400 }, res, st) := by
  unfold register
  rcases h with h | h | h <;> simp [h]

/-- Concrete run of register_missing_field_claim: a body missing the
name field is rejected with 400 and the store stays as it was. -/
theorem register_missing_field_claim_witness :
    register wEnv wStore { name := none, email := some "a@x.com", password := some "p" }
        3 res0 =
      (Except.error { message := "All fields are required.", statusCode := 400 }, res0, wStore) :=
  register_missing_field_claim wEnv wStore res0 3 _ (Or.inl (by decide))

/-- C6: for every call to the token issuer, the signed token's payload
is exactly the account identifier with a 15-day expiry, and the cookie
named token is set with maxAge 15 days in milliseconds, httpOnly true,
sameSite lax, and secure exactly when the running mode is production. -/
theorem generateToken_claim (accountId : String) (env : Env) :
    generateToken accountId env =
      { name := "token",
        value := encodeToken (jwtSign accountId env.jwtSecret),
        maxAge := 15 * 24 * 60 * 60 * 1000,
        httpOnly := true,
        sameSite := some "lax",
        secure := env.nodeEnv == "production" } ∧
    (jwtSign accountId env.jwtSecret).accountId = accountId ∧
    (jwtSign accountId env.jwtSecret).expiresInDays = 15 ∧
    ((generateToken accountId env).secure = true ↔ env.nodeEnv = "production") := by
  refine ⟨rfl, rfl, rfl, ?_⟩
  simp [generateToken]

/-- C7: every logout request, whatever the request contents or prior
authentication state, gets status 200 and the token cookie overwritten
with the empty immediately-expiring value; any two requests receive the
identical response. -/
theorem logout_claim (req req2 : Request) (res : Res) :
    logout req res =
      { cookies := res.cookies ++
          [{ name := "token", value := "", maxAge := 0,
             httpOnly := false, sameSite := none, secure := false }],
        sent := some (200, Body.json [("message", JVal.s "Logged out successfully")]) } ∧
    logout req res = logout req2 res :=
  ⟨rfl, rfl⟩

/-- C2: for every login request with email and password present, the
handler fails with 404 when no account matches the email, fails with 400
when the password does not verify against the stored hash, and responds
200 setting the session-token cookie when it does verify. -/
theorem login_claim (env : Env) (st : Store) (res : Res) (bn : Option String)
    (e p : String) (he : e ≠ "") (hp : p ≠ "") :
    (findAccountS st (emailFilter e) = none →
      login env st { name := bn, email := some e, password := some p } res =
        (Except.error { message := "Account not found.", statusCode := 404 }, res)) ∧
    (∀ a, findAccountS st (emailFilter e) = some a →
      (comparePassword p a.password = false →
        login env st { name := bn, email := some e, password := some p } res =
          (Except.error { message := "Incorrect password.", statusCode := 400 }, res)) ∧
      (comparePassword p a.password = true →
        login env st { name := bn, email := some e, password := some p } res =
          (Except.ok (),
           { cookies := res.cookies ++ [generateToken a._id env],
             sent := some (200, Body.json [("message", JVal.s "Login successfuly.")]) }))) := by
  refine ⟨fun hfind => ?_, fun a hfind => ⟨fun hcmp => ?_, fun hcmp => ?_⟩⟩
  · simp [login, truthy, he, hp, hfind]
  · simp [login, truthy, he, hp, hfind, hcmp]
  · simp [login, truthy, he, hp, hfind, hcmp, setCookie, send]

/-- Concrete run of login_claim: the stored account b@x.com with digest
of pw accepts the correct password and gets the cookie and the 200. -/
theorem login_claim_witness :
    login wEnv wStore { name := none, email := some "b@x.com", password := some "pw" } res0 =
      (Except.ok (),
       { cookies := res0.cookies ++ [generateToken wAccount._id wEnv],
         sent := some (200, Body.json [("message", JVal.s "Login successfuly.")]) }) :=
  ((login_claim wEnv wStore res0 none "b@x.com" "pw" (by decide) (by decide)).2
    wAccount (by rfl)).2 (by rfl)

/-- C10: whenever register or login fails, the handler throws before the
token issuer runs: the response object of a failing call is returned
exactly as it was received (no cookie added), and for register the store
is also unchanged. -/
theorem no_cookie_on_failure_claim :
    (∀ (env : Env) (st : Store) (body : ReqBody) (salt : Nat) (res : Res)
      (e : AppError) (r : Res) (s : Store),
      register env st body salt res = (Except.error e, r, s) → r = res ∧ s = st) ∧
    (∀ (env : Env) (st : Store) (body : ReqBody) (res : Res) (e : AppError) (r : Res),
      login env st body res = (Except.error e, r) → r = res) := by
  constructor
  · intro env st body salt res e r s h
    unfold register at h
    split at h
    · simp only [Prod.mk.injEq] at h
      exact ⟨h.2.1.symm, h.2.2.symm⟩
    · split at h
      · simp only [Prod.mk.injEq] at h
        exact ⟨h.2.1.symm, h.2.2.symm⟩
      · simp only [Prod.mk.injEq] at h
        exact absurd h.1 (by simp)
  · intro env st body res e r h
    unfold login at h
    split at h
    · simp only [Prod.mk.injEq] at h
      exact h.2.symm
    · split at h
      · simp only [Prod.mk.injEq] at h
        exact h.2.symm
      · split at h
        · simp only [Prod.mk.injEq] at h
          exact h.2.symm
        · simp only [Prod.mk.injEq] at h
          exact absurd h.1 (by simp)

/-- Concrete run of no_cookie_on_failure_claim: a register call failing
validation hands back the response object and the store untouched. -/
theorem no_cookie_on_failure_claim_witness :
    register wEnv wStore { name := none, email := none, password := none } 3 res0 =
      (Except.error { message := "All fields are required.", statusCode := 400 },
        res0, wStore) ∧
    (res0 = res0 ∧ wStore = wStore) :=
  ⟨by rfl,
    no_cookie_on_failure_claim.1 wEnv wStore
      { name := none, email := none, password := none } 3 res0
      { message := "All fields are required.", statusCode := 400 } res0 wStore (by rfl)⟩

/-- C8: for every request whose method and original URL match no
registered route, the bootstrapped app responds 404 with a structured
JSON body that carries the requested path and the request method. -/
theorem unmatched_route_claim (env : Env) (st : Store) (salt : Nat) (stk : String)
    (req : Request) (h : route req.method req.originalUrl = none) :
    serverHandle env st salt stk req =
      ({ cookies := [],
         sent := some (404, Body.json
           [("message", JVal.s "Route Not Found"),
            ("path", JVal.s req.originalUrl),
            ("method", JVal.s req.method)]) }, st) ∧
    (∃ fields, (serverHandle env st salt stk req).1.sent = some (404, Body.json fields) ∧
      ("path", JVal.s req.originalUrl) ∈ fields ∧
      ("method", JVal.s req.method) ∈ fields) := by
  have h1 : serverHandle env st salt stk req = (notFoundHandler req res0, st) := by
    unfold serverHandle
    rw [h]
  refine ⟨?_, ?_⟩
  · rw [h1]; rfl
  · rw [h1]
    exact ⟨_, rfl, by simp, by simp⟩

/-- Concrete run of unmatched_route_claim: GET /nope matches nothing and
draws the 404 body echoing /nope and GET. -/
theorem unmatched_route_claim_witness :
    serverHandle wEnv wStore 3 "tr" { method := "GET", originalUrl := "/nope", body := {} } =
      ({ cookies := [],
         sent := some (404, Body.json
           [("message", JVal.s "Route Not Found"),
            ("path", JVal.s "/nope"),
            ("method", JVal.s "GET")]) }, wStore) :=
  (unmatched_route_claim wEnv wStore 3 "tr"
    { method := "GET", originalUrl := "/nope", body := {} } (by rfl)).1

/-- C4 counterexample: the code rejects a duplicate email with the
message Email already exist. (without the final s the claim states), and
a duplicate-email request whose name field is empty draws the 400
validation error rather than the 409 conflict. -/
theorem register_email_conflict_cex :
    (register wEnv wStore { name := some "A", email := some "b@x.com", password := some "p" }
        3 res0 =
      (Except.error { message := "Email already exist.", statusCode := 409 }, res0, wStore)) ∧
    ("Email already exist." ≠ "Email already exists.") ∧
    (register wEnv wStore { name := some "", email := some "b@x.com", password := some "p" }
        3 res0 =
      (Except.error { message := "All fields are required.", statusCode := 400 }, res0, wStore)) ∧
    ((400 : Nat) ≠ 409) :=
  ⟨by rfl, by decide, by rfl, by decide⟩

/-- C4 as amended: for every register request with name, email and
password all present and non-empty whose email already belongs to a
persisted account, the handler fails with the 409 conflict error whose
message is Email already exist., leaving store and response untouched;
and starting from a store free of that email, two register calls with
the same email leave exactly one account carrying it: the first
succeeds, the second fails with the conflict error and does not change
the store. -/
theorem register_email_conflict_claim (env : Env) (st : Store) (res : Res) (salt : Nat)
    (n e p : String) (a : Account)
    (hn : n ≠ "") (he : e ≠ "") (hp : p ≠ "")
    (hdup : findAccountS st (emailFilter e) = some a) :
    register env st { name := some n, email := some e, password := some p } salt res =
      (Except.error { message := "Email already exist.", statusCode := 409 }, res, st) ∧
    (∀ (st0 : Store) (r0 : Res), (∀ b ∈ st0.accounts, b.email ≠ e) →
      ((register env st0 { name := some n, email := some e, password := some p } salt r0).1
          = Except.ok ()) ∧
      ((register env st0 { name := some n, email := some e, password := some p } salt
          r0).2.2.accounts.countP (fun b => b.email == e) = 1) ∧
      ((register env
          (register env st0 { name := some n, email := some e, password := some p } salt r0).2.2
          { name := some n, email := some e, password := some p } salt r0).1
        = Except.error { message := "Email already exist.", statusCode := 409 }) ∧
      ((register env
          (register env st0 { name := some n, email := some e, password := some p } salt r0).2.2
          { name := some n, email := some e, password := some p } salt r0).2.2
        = (register env st0 { name := some n, email := some e, password := some p } salt
            r0).2.2)) := by
  constructor
  · simp [register, truthy, hn, he, hp, hdup]
  · intro st0 r0 hfree
    have h1 := register_ok env st0 r0 salt hn he hp hfree
    rw [h1]
    have hfindnone : st0.accounts.find? (matchesFilter (emailFilter e)) = none :=
      findAccountS_emailFilter_eq_none hfree
    have hmatch : matchesFilter (emailFilter e)
        { _id := toString st0.nextId, name := n, email := e,
          password := hashPassword salt p } = true := by
      rw [matchesFilter_emailFilter]
      simp
    have hfind2 : findAccountS
        { accounts := st0.accounts ++
            [{ _id := toString st0.nextId, name := n, email := e,
               password := hashPassword salt p }],
          nextId := st0.nextId + 1 } (emailFilter e) =
        some { _id := toString st0.nextId, name := n, email := e,
               password := hashPassword salt p } := by
      unfold findAccountS
      simp only
      rw [find?_append_of_none _ _ hfindnone]
      simp [List.find?, hmatch]
    refine ⟨rfl, ?_, ?_, ?_⟩
    · simp only
      rw [List.countP_append]
      have hz : st0.accounts.countP (fun b => b.email == e) = 0 :=
        List.countP_eq_zero.mpr (fun b hb => by simp [hfree b hb])
      rw [hz]
      simp [List.countP_cons]
    · simp [register, truthy, hn, he, hp, hfind2]
    · simp [register, truthy, hn, he, hp, hfind2]

/-- Concrete run of register_email_conflict_claim: re-registering the
persisted email b@x.com fails with the 409 conflict, store untouched. -/
theorem register_email_conflict_claim_witness :
    register wEnv wStore { name := some "A", email := some "b@x.com", password := some "p" }
        3 res0 =
      (Except.error { message := "Email already exist.", statusCode := 409 }, res0, wStore) :=
  (register_email_conflict_claim wEnv wStore res0 3 "A" "b@x.com" "p" wAccount
    (by decide) (by decide) (by decide) (by rfl)).1

/-- C5 counterexample: in the non-production mode test, an unstructured
error carrying its own message boom is answered with that message, not
the generic one, and without any stack field even though the mode is not
production. -/
theorem error_responder_cex :
    globalErrorHandler wEnv (JsError.other none (some "boom") "trace") res0 =
      { cookies := [],
        sent := some (500, Body.json
          [("success", JVal.b false), ("message", JVal.s "boom")]) } ∧
    ("boom" ≠ "Something went wrong.") ∧
    (wEnv.nodeEnv ≠ "production") :=
  ⟨by rfl, by decide, by decide⟩

/-- C5 as amended: a structured application error is answered with its
status code and message verbatim; any other error is answered with its
own statusCode field when present and non-zero (500 otherwise) and its
own message field when present and non-empty (the generic message
otherwise); the body always carries the success flag and a message; and
the stack field is included exactly when the running mode is
development. -/
theorem error_responder_claim (env : Env) (err : JsError) (res : Res) :
    (∀ e stk, err = JsError.app e stk →
      globalErrorHandler env err res =
        send res e.statusCode (Body.json
          ([("success", JVal.b false), ("message", JVal.s e.message)]
            ++ if env.nodeEnv == "development" then [("stack", JVal.s stk)] else []))) ∧
    (∀ sc m stk, err = JsError.other sc m stk →
      globalErrorHandler env err res =
        send res (jsOrNat sc 500) (Body.json
          ([("success", JVal.b false),
            ("message", JVal.s (jsOrStr m "Something went wrong."))]
            ++ if env.nodeEnv == "development" then [("stack", JVal.s stk)] else []))) ∧
    (∃ code fields,
      (globalErrorHandler env err res).sent = some (code, Body.json fields) ∧
      ("success", JVal.b false) ∈ fields ∧
      (∃ msg, ("message", JVal.s msg) ∈ fields) ∧
      ((∃ stk, ("stack", JVal.s stk) ∈ fields) ↔ env.nodeEnv = "development")) := by
  refine ⟨fun e stk hk => ?_, fun sc m stk hk => ?_, ?_⟩
  · subst hk
    simp [globalErrorHandler, JsError.stackOf]
  · subst hk
    simp [globalErrorHandler, JsError.stackOf]
  · cases err with
    | app e stk =>
      refine ⟨e.statusCode,
        [("success", JVal.b false), ("message", JVal.s e.message)]
          ++ (if env.nodeEnv == "development" then [("stack", JVal.s stk)] else []),
        ?_, ?_, ⟨e.message, ?_⟩, ?_⟩
      · simp [globalErrorHandler, send, JsError.stackOf]
      · simp
      · simp
      · by_cases hd : env.nodeEnv = "development" <;> simp [hd]
    | other sc m stk =>
      refine ⟨jsOrNat sc 500,
        [("success", JVal.b false),
         ("message", JVal.s (jsOrStr m "Something went wrong."))]
          ++ (if env.nodeEnv == "development" then [("stack", JVal.s stk)] else []),
        ?_, ?_, ⟨jsOrStr m "Something went wrong.", ?_⟩, ?_⟩
      · simp [globalErrorHandler, send, JsError.stackOf]
      · simp
      · simp
      · by_cases hd : env.nodeEnv = "development" <;> simp [hd]

/-- Concrete run of error_responder_claim: in development mode a thrown
404 AppError is answered verbatim with its stack attached. -/
theorem error_responder_claim_witness :
    globalErrorHandler wDev (JsError.app { message := "X", statusCode := 404 } "tr") res0 =
      send res0 404 (Body.json
        [("success", JVal.b false), ("message", JVal.s "X"), ("stack", JVal.s "tr")]) :=
  (error_responder_claim wDev (JsError.app { message := "X", statusCode := 404 } "tr")
    res0).1 { message := "X", statusCode := 404 } "tr" rfl

/-- C9: the authentication route table binds exactly three endpoints,
all POST, under the base path /api/auth — register, login and logout —
each dispatching to its controller handler; every route the app resolves
is one of those three or the health route. -/
theorem auth_routes_claim :
    authRouter.length = 3 ∧
    (∀ b ∈ authRouter, b.1 = "POST") ∧
    route "POST" "/api/auth/register" = some Handler.register ∧
    route "POST" "/api/auth/login" = some Handler.login ∧
    route "POST" "/api/auth/logout" = some Handler.logout ∧
    (∀ m p h, route m p = some h →
      (m = "GET" ∧ p = "/api/test" ∧ h = Handler.test) ∨
      (m = "POST" ∧ p = "/api/auth/register" ∧ h = Handler.register) ∨
      (m = "POST" ∧ p = "/api/auth/login" ∧ h = Handler.login) ∨
      (m = "POST" ∧ p = "/api/auth/logout" ∧ h = Handler.logout)) := by
  refine ⟨rfl, ?_, rfl, rfl, rfl, ?_⟩
  · intro b hb
    simp only [authRouter, List.mem_cons, List.not_mem_nil, or_false] at hb
    rcases hb with h | h | h <;> simp [h]
  · intro m p h hr
    simp only [route, authRouter, List.map, lookupRoute] at hr
    split_ifs at hr with h1 h2 h3 h4
    · simp only [Option.some.injEq] at hr
      simp only [Bool.and_eq_true, beq_iff_eq] at h1
      exact Or.inl ⟨h1.1, h1.2, hr.symm⟩
    · simp only [Option.some.injEq] at hr
      simp only [Bool.and_eq_true, beq_iff_eq] at h2
      exact Or.inr (Or.inl ⟨h2.1, h2.2, hr.symm⟩)
    · simp only [Option.some.injEq] at hr
      simp only [Bool.and_eq_true, beq_iff_eq] at h3
      exact Or.inr (Or.inr (Or.inl ⟨h3.1, h3.2, hr.symm⟩))
    · simp only [Option.some.injEq] at hr
      simp only [Bool.and_eq_true, beq_iff_eq] at h4
      exact Or.inr (Or.inr (Or.inr ⟨h4.1, h4.2, hr.symm⟩))

/-- Concrete run of auth_routes_claim: resolving POST /api/auth/login
lands on one of the registered handlers, namely login. -/
theorem auth_routes_claim_witness :
    ("POST" = "GET" ∧ "/api/auth/login" = "/api/test" ∧ Handler.login = Handler.test) ∨
    ("POST" = "POST" ∧ "/api/auth/login" = "/api/auth/register" ∧
      Handler.login = Handler.register) ∨
    ("POST" = "POST" ∧ "/api/auth/login" = "/api/auth/login" ∧
      Handler.login = Handler.login) ∨
    ("POST" = "POST" ∧ "/api/auth/login" = "/api/auth/logout" ∧
      Handler.login = Handler.logout) :=
  auth_routes_claim.2.2.2.2.2 "POST" "/api/auth/login" Handler.login (by rfl)

end AuthBackend
